import Mathlib

/-!
Verification of the Privacy Point workflow orchestration core
(`src/workflows/workflow.py`, `src/workflows/state.py` and the agents it
drives).  The Python code threads a mutable dict ("DocumentState", a
TypedDict) through a LangGraph `StateGraph`; we embed the dict as a record
whose fields are `Option`-valued where the corresponding dict key may be
absent, and embed each function of the source line by line.  Python
floats carrying scores are embedded as rationals; `re.findall` results are
embedded by their observable match counts; calls to the external language
model and OCR backends are parameters of the functions that make them.
Python exceptions are modelled with `Except PyExc`.
-/

/-- `ProcessingStatus` enum of `src/workflows/state.py`. -/
inductive ProcessingStatus where
  | pending
  | processing
  | ocr_complete
  | classified
  | researched
  | structured
  | generated
  | quality_checked
  | compliance_validated
  | human_review
  | approved
  | rejected
  | error
  deriving DecidableEq, Repr

/-- `DocumentType` enum of `src/workflows/state.py` (values are the
Portuguese tag strings). -/
inductive DocumentType where
  | privacy_policy
  | consent_form
  | contract_clause
  | committee_minutes
  | code_of_conduct
  | data_processing_agreement
  | breach_notification
  | impact_assessment
  deriving DecidableEq, Repr

/-- The `.value` string of each `DocumentType` member. -/
def DocumentType.valueStr : DocumentType → String
  | .privacy_policy => "politica_privacidade"
  | .consent_form => "termo_consentimento"
  | .contract_clause => "clausula_contratual"
  | .committee_minutes => "ata_comite"
  | .code_of_conduct => "codigo_conduta"
  | .data_processing_agreement => "acordo_tratamento_dados"
  | .breach_notification => "notificacao_violacao"
  | .impact_assessment => "avaliacao_impacto"

/-- The Python value stored under the `document_type` key.  The TypedDict
declares it a `DocumentType` enum, but `create_initial_state` stores the
raw `str` it was given; agents then call `.value` on it.  We keep both
possibilities, as the runtime does. -/
inductive PyDocType where
  | enumVal (d : DocumentType)
  | strVal (s : String)
  deriving DecidableEq, Repr

/-- Python exceptions that the embedded code can raise past a function
boundary. -/
inductive PyExc where
  | attributeError (msg : String)
  | keyError (key : String)
  | invalidBranch (branch : String)
  | graphRecursionLimit
  deriving DecidableEq, Repr

/-- Accessing `.value` on the stored `document_type`: succeeds on an enum
member, raises `AttributeError` on a raw string (as `str` has no `.value`). -/
def PyDocType.value : PyDocType → Except PyExc String
  | .enumVal d => .ok d.valueStr
  | .strVal _ => .error (.attributeError "str object has no attribute value")

/-- Shallow embedding of the state dict threaded through the workflow.
Fields are `Option`-valued where the dict key can be absent at runtime
(`none` = key absent).  `status` is the key written by the
`DocumentWorkflow._run_*` wrappers and read by `_should_continue`;
`current_status` is the distinct key written by the agents' `execute`
methods.  `has_human_supervision` records membership of the
`"human_supervision"` key (tested by `_should_continue`); the remaining
keys of the runtime dict (timestamps, context, the per-agent result dicts,
metadata) are not observed by any embedded function and are projected
away. -/
structure DocumentState where
  document_id : String
  document_type : PyDocType
  company_name : String
  activity_description : String
  industry_sector : Option String
  language : Option String
  jurisdiction : Option String
  uploaded_file : Option (List Nat)
  status : Option ProcessingStatus
  current_status : Option ProcessingStatus
  current_step : Option String
  processing_log : Option (List String)
  error_messages : Option (List String)
  errorKey : Option (Option String)
  file_type : Option String
  ocr_text : Option String
  ocr_confidence : Option ℚ
  document_classification : Option String
  generated_content : Option String
  quality_score : Option ℚ
  compliance_score : Option ℚ
  revision_attempts : Option Int
  is_complete : Option Bool
  is_approved : Option Bool
  can_be_delivered : Option Bool
  processing_time : Option ℚ
  has_human_supervision : Bool
  deriving DecidableEq, Repr

/-- `BaseAgent.log_action`: create `processing_log` if missing, then append
one entry. -/
def logAction (s : DocumentState) (msg : String) : DocumentState :=
  { s with processing_log := some (s.processing_log.getD [] ++ [msg]) }

/-- `DocumentWorkflow.create_initial_state`
(`src/workflows/workflow.py` lines 41-97).  The `uuid.uuid4()` document id
is taken as an explicit parameter; the raw `document_type` string is
stored unchanged, no input is validated, and no exception path exists.
Keys the source leaves unset (among them `current_status`,
`error_messages` and `revision_attempts`) are `none`; `error` is set to
Python `None` (`some none`). -/
def createInitialState (docId : String) (document_type : String)
    (company_name : String) (activity_description : String)
    (uploaded_file : Option (List Nat)) : DocumentState :=
  { document_id := docId
    document_type := .strVal document_type
    company_name := company_name
    activity_description := activity_description
    industry_sector := some "geral"
    language := some "pt-BR"
    jurisdiction := some "BR"
    uploaded_file := uploaded_file
    status := some .pending
    current_status := none
    current_step := none
    processing_log := some []
    error_messages := none
    errorKey := some none
    file_type := none
    ocr_text := none
    ocr_confidence := none
    document_classification := none
    generated_content := some ""
    quality_score := some 0
    compliance_score := some 0
    revision_attempts := none
    is_complete := some false
    is_approved := some false
    can_be_delivered := none
    processing_time := some 0
    has_human_supervision := true }

/-- The closed document-type set named by the spec interface
(`valid_types` as checked by the API collaborator, `src/api/main.py`). -/
def validDocumentTypes : List String :=
  ["politica_privacidade", "termo_consentimento", "clausula_contratual",
   "ata_comite", "codigo_conduta", "acordo_tratamento_dados",
   "notificacao_violacao", "avaliacao_impacto"]

/-- The outcome of the OCR try-block's external work in `OCRAgent.execute`
(file-type detection, pdf/image processing, text post-processing and
document classification): either the extracted results or the message of
the exception it raised.  These steps drive external OCR backends, so the
embedding takes the outcome as a parameter. -/
structure OcrOutcome where
  file_type : String
  text : String
  confidence : ℚ
  classification : String
  deriving DecidableEq, Repr

/-- `OCRAgent.execute` (`src/agents/ocr_agent.py` lines 89-137),
parametrised by the outcome `work` of its internal extraction work.
On an exception the handler logs, appends to `error_messages` — which
raises `KeyError` when that key is absent — and sets
`current_status = ERROR` and `ocr_confidence = 0.0`. -/
def ocrExecute (work : Except String OcrOutcome) (s : DocumentState) :
    Except PyExc DocumentState :=
  let s1 := { s with current_status := some .processing,
                     current_step := some "OCR Processing" }
  if s1.uploaded_file = none ∨ s1.uploaded_file = some [] then
    .ok (logAction s1 "Nenhum arquivo para processar")
  else
    match work with
    | .ok o =>
        let s2 := { s1 with file_type := some o.file_type,
                            ocr_text := some o.text,
                            ocr_confidence := some o.confidence,
                            document_classification := some o.classification,
                            current_status := some .ocr_complete }
        .ok (logAction s2 "OCR concluido")
    | .error e =>
        let s2 := logAction s1 ("Erro no OCR: " ++ e)
        match s2.error_messages with
        | none => .error (.keyError "error_messages")
        | some msgs =>
            .ok { s2 with error_messages := some (msgs ++ ["OCR Error: " ++ e]),
                          current_status := some .error,
                          ocr_confidence := some 0 }

/-- The part of `QualityAssessment` observed by the state updates of
`QualityAgent.execute`; the per-axis scores, issue list and
recommendations are projected away. -/
structure QualityAssessmentR where
  overall_score : ℚ
  is_acceptable : Bool
  deriving DecidableEq, Repr

/-- `QualityAgent.execute` (`src/agents/quality_agent.py` lines 41-69),
parametrised by the outcome `assess` of `_assess_document_quality` (regex
scoring over the generated content; it raises when, e.g., the stored
`document_type` is a raw string and `.value` is accessed).  Both the
acceptable and the unacceptable branch set
`current_status = QUALITY_CHECKED`; only the unacceptable branch
increments `revision_attempts`. -/
def qualityExecute (assess : Except String QualityAssessmentR)
    (s : DocumentState) : Except PyExc DocumentState :=
  let s1 := { s with current_status := some .processing,
                     current_step := some "Quality Control" }
  match assess with
  | .ok a =>
      let s2 := { s1 with quality_score := some a.overall_score }
      if ¬ a.is_acceptable then
        let s3 := { s2 with revision_attempts := some (s2.revision_attempts.getD 0 + 1),
                            current_status := some .quality_checked }
        .ok (logAction s3 "Documento requer revisao")
      else
        let s3 := { s2 with current_status := some .quality_checked }
        .ok (logAction s3 "Qualidade aprovada")
  | .error e =>
      let s2 := logAction s1 ("Erro no controle de qualidade: " ++ e)
      match s2.error_messages with
      | none => .error (.keyError "error_messages")
      | some msgs =>
          .ok { s2 with error_messages := some (msgs ++ ["Quality Error: " ++ e]),
                        current_status := some .error }

/-- Approval decision values of `ReviewFeedback.approval_status`. -/
inductive ApprovalStatus where
  | approved
  | needs_revision
  | rejected
  deriving DecidableEq, Repr

/-- `Config.MAX_REVISION_ATTEMPTS` (`src/config.py`): the configured
maximum number of revision attempts, default
`int(os.getenv("MAX_REVISION_ATTEMPTS", "3")) = 3`. -/
def MAX_REVISION_ATTEMPTS : Int := 3

/-- The decision rule of `HumanSupervisionAgent._process_human_review`
(`src/agents/human_supervision_agent.py` lines 132-164) as a function of
the scores and counter it reads from the state (with the source's
`state.get(..., 0.0)` defaults applied by the caller).  The revision
bound is the literal `2`; the configured `MAX_REVISION_ATTEMPTS` is not
consulted. -/
def processHumanReview (quality_score compliance_score : ℚ)
    (revision_attempts : Int) : ApprovalStatus :=
  if 0.85 ≤ quality_score ∧ 0.85 ≤ compliance_score then .approved
  else if revision_attempts < 2 ∧ (quality_score < 0.8 ∨ compliance_score < 0.8) then
    .needs_revision
  else .rejected

/-- The decision rule as the spec's words state it (§4.4): approve iff
both scores ≥ 0.85, else `needs_revision` iff `revision_attempts` is
below the configured maximum and either score < 0.8, else `rejected`.
Stated for comparison with `processHumanReview`. -/
def specReviewDecision (quality_score compliance_score : ℚ)
    (revision_attempts : Int) : ApprovalStatus :=
  if 0.85 ≤ quality_score ∧ 0.85 ≤ compliance_score then .approved
  else if revision_attempts < MAX_REVISION_ATTEMPTS ∧
      (quality_score < 0.8 ∨ compliance_score < 0.8) then
    .needs_revision
  else .rejected

/-- `HumanSupervisionAgent.execute` (`src/agents/human_supervision_agent.py`
lines 34-72).  `_prepare_review_package` accesses
`state["document_type"].value`, so the try-block raises on states whose
stored document type is a raw string; the handler then appends to
`error_messages` (raising `KeyError` when absent).  Otherwise the
simulated decision drives the final status updates; the reviewer-identity
fields the source also writes are projected away. -/
def hsExecute (s : DocumentState) : Except PyExc DocumentState :=
  let s1 := { s with current_status := some .processing,
                     current_step := some "Human Supervision" }
  match s1.document_type.value with
  | .error _ =>
      let s2 := logAction s1 "Erro na supervisao humana: AttributeError"
      match s2.error_messages with
      | none => .error (.keyError "error_messages")
      | some msgs =>
          .ok { s2 with error_messages := some (msgs ++ ["Human Supervision Error: AttributeError"]),
                        current_status := some .error }
  | .ok _ =>
      let decision := processHumanReview (s1.quality_score.getD 0)
        (s1.compliance_score.getD 0) (s1.revision_attempts.getD 0)
      match decision with
      | .approved =>
          .ok (logAction { s1 with current_status := some .approved,
                                   is_approved := some true,
                                   can_be_delivered := some true }
                "Documento aprovado por Revisor Simulado")
      | .needs_revision =>
          .ok (logAction { s1 with current_status := some .human_review,
                                   revision_attempts := some (s1.revision_attempts.getD 0 + 1) }
                "Documento requer revisao")
      | .rejected =>
          .ok (logAction { s1 with current_status := some .rejected,
                                   is_approved := some false }
                "Documento rejeitado por Revisor Simulado")

/-- Requirement status values of `ComplianceRequirement.status`. -/
inductive ReqStatus where
  | compliant
  | partial_
  | non_compliant
  deriving DecidableEq, Repr

/-- Risk level values of `ComplianceRequirement.risk_level`. -/
inductive RiskLevel where
  | low
  | medium
  | high
  | critical
  deriving DecidableEq, Repr

/-- `ComplianceRequirement` model of `src/agents/compliance_agent.py`. -/
structure ComplianceRequirement where
  requirement_id : String
  description : String
  lgpd_article : String
  status : ReqStatus
  evidence : String
  risk_level : RiskLevel
  deriving DecidableEq, Repr

/-- `ComplianceAgent._check_requirement` (lines 330-339) as a function of
the observable `len(re.findall(pattern, content, re.IGNORECASE))`. -/
def checkRequirement (matchCount : Nat) : ReqStatus × String :=
  if 2 ≤ matchCount then
    (.compliant, "Encontradas " ++ toString matchCount ++ " referencias")
  else if matchCount = 1 then
    (.partial_, "Encontrada 1 referencia")
  else
    (.non_compliant, "Nenhuma referencia encontrada")

/-- The `weight_map = {low: 1, medium: 2, high: 3, critical: 4}` risk
multiplier of `_calculate_requirement_score`. -/
def riskWeight : RiskLevel → ℚ
  | .low => 1
  | .medium => 2
  | .high => 3
  | .critical => 4

/-- The `status_score = {compliant: 1.0, partial: 0.5, non_compliant: 0.0}`
table of `_calculate_requirement_score`. -/
def statusScore : ReqStatus → ℚ
  | .compliant => 1
  | .partial_ => 0.5
  | .non_compliant => 0

/-- The accumulation loop of `_calculate_requirement_score`: fold the
requirement list adding `score * weight` to `weighted_score` and `weight`
to `total_weight`. -/
def scoreLoop (reqs : List ComplianceRequirement) (weighted_score total_weight : ℚ) :
    ℚ × ℚ :=
  match reqs with
  | [] => (weighted_score, total_weight)
  | r :: rest =>
      scoreLoop rest (weighted_score + statusScore r.status * riskWeight r.risk_level)
        (total_weight + riskWeight r.risk_level)

/-- `ComplianceAgent._calculate_requirement_score` (lines 341-361):
`1.0` on the empty list, else the loop's `weighted_score / total_weight`
guarded by `total_weight > 0`. -/
def calculateRequirementScore (reqs : List ComplianceRequirement) : ℚ :=
  if reqs.isEmpty then 1
  else
    let ws := scoreLoop reqs 0 0
    if 0 < ws.2 then ws.1 / ws.2 else 0

/-- The aggregate formula as the spec's words state it:
`Σ(status_score × weight) / Σ(weight)`.  Stated for comparison with
`calculateRequirementScore`. -/
def specAggregateScore (reqs : List ComplianceRequirement) : ℚ :=
  (reqs.map (fun r => statusScore r.status * riskWeight r.risk_level)).sum /
    (reqs.map (fun r => riskWeight r.risk_level)).sum

/-- The scoring part of `ComplianceAgent._validate_compliance`
(lines 73-121), as a function of the three requirement lists built by
`_validate_lgpd_requirements`, `_validate_anpd_requirements` and
`_validate_industry_requirements` (whose statuses come from
`checkRequirement` on regex match counts).  Returns the weighted
`overall_score` and the `is_compliant` verdict: the source requires
`overall_score >= 0.85` and **zero requirements whose `risk_level` is
`critical`**, regardless of their status. -/
def validateCompliance (lgpd anpd industry : List ComplianceRequirement) :
    ℚ × Bool :=
  let all_requirements := lgpd ++ anpd ++ industry
  let lgpd_score := calculateRequirementScore lgpd
  let anpd_score := calculateRequirementScore anpd
  let industry_score := calculateRequirementScore industry
  let overall_score := lgpd_score * 0.5 + anpd_score * 0.3 + industry_score * 0.2
  let is_compliant := decide (0.85 ≤ overall_score) &&
    decide ((all_requirements.filter (fun r => r.risk_level = .critical)).length = 0)
  (overall_score, is_compliant)

/-- A requirement is unresolved when its status is not `compliant`; the
spec's compliance verdict counts only unresolved requirements at critical
risk. -/
def unresolvedCritical (r : ComplianceRequirement) : Prop :=
  r.risk_level = .critical ∧ r.status ≠ .compliant

/-- The compliance verdict as the spec's words state it (§4.4): compliant
iff the weighted score is ≥ 0.85 and zero unresolved requirements are
flagged at critical risk.  Stated for comparison with
`validateCompliance`. -/
def specIsCompliant (lgpd anpd industry : List ComplianceRequirement) : Prop :=
  0.85 ≤ (validateCompliance lgpd anpd industry).1 ∧
    ∀ r ∈ lgpd ++ anpd ++ industry, ¬ unresolvedCritical r

/-- The node names of the compiled `StateGraph`
(`DocumentWorkflow._build_graph`, lines 116-238). -/
inductive Node where
  | ocr
  | classifier
  | data_mapping
  | research
  | legal_expert
  | cyber_security
  | structure_
  | generator
  | quality
  | compliance
  | human_supervision
  deriving DecidableEq, Repr

/-- Whether the agent registered for a node defines a `process` method.
Only `DataMappingAgent`, `LegalExpertAgent` and `CyberSecurityAgent` do;
`BaseAgent` and the other eight agents define only `execute`, so
`self.agents[name].process` raises `AttributeError` for them. -/
def hasProcess : Node → Bool
  | .data_mapping => true
  | .legal_expert => true
  | .cyber_security => true
  | _ => false

/-- The class name of the agent registered for each node. -/
def agentClass : Node → String
  | .ocr => "OCRAgent"
  | .classifier => "ClassifierAgent"
  | .data_mapping => "DataMappingAgent"
  | .research => "ResearchAgent"
  | .legal_expert => "LegalExpertAgent"
  | .cyber_security => "CyberSecurityAgent"
  | .structure_ => "StructureAgent"
  | .generator => "GeneratorAgent"
  | .quality => "QualityAgent"
  | .compliance => "ComplianceAgent"
  | .human_supervision => "HumanSupervisionAgent"

/-- The `AttributeError` message produced by `agent.process` on an agent
without that method. -/
def attrErrMsg (n : Node) : String :=
  agentClass n ++ " object has no attribute process"

/-- The `DocumentWorkflow._run_*` node handlers (lines 240-359),
parametrised by the `process` implementations of the three agents that
have one (each of which catches its own exceptions and returns the state,
so they are total).  For the eight agents without `process` the attribute
lookup raises `AttributeError`, which the handler catches, setting the
`status` key to `ERROR` and the `error` key to the message. -/
def runNode (dmProcess leProcess csProcess : DocumentState → DocumentState)
    (n : Node) (s : DocumentState) : DocumentState :=
  match n with
  | .data_mapping => dmProcess s
  | .legal_expert => leProcess s
  | .cyber_security => csProcess s
  | _ => { s with status := some .error, errorKey := some (some (attrErrMsg n)) }

/-- `DocumentWorkflow._should_continue` (lines 361-370): `"error"` when
the `status` key equals `ProcessingStatus.ERROR`, else `"end"` when the
`"human_supervision"` key is in the state dict, else `"continue"`. -/
def shouldContinue (s : DocumentState) : String :=
  if s.status = some ProcessingStatus.error then "error"
  else if s.has_human_supervision then "end"
  else "continue"

/-- The conditional-edge branch map registered for each node in
`_build_graph`; `none` is `END`. -/
def edgeMap : Node → List (String × Option Node)
  | .ocr => [("classifier", some .classifier), ("error", none)]
  | .classifier => [("data_mapping", some .data_mapping), ("error", none)]
  | .data_mapping => [("research", some .research), ("error", none)]
  | .research => [("legal_expert", some .legal_expert), ("error", none)]
  | .legal_expert => [("cyber_security", some .cyber_security), ("error", none)]
  | .cyber_security => [("structure", some .structure_), ("error", none)]
  | .structure_ => [("generator", some .generator), ("error", none)]
  | .generator => [("quality", some .quality), ("error", none)]
  | .quality => [("compliance", some .compliance), ("error", none)]
  | .compliance => [("human_supervision", some .human_supervision), ("error", none)]
  | .human_supervision => [("end", none), ("error", none)]

/-- First-match lookup in a branch map (dict lookup). -/
def branchLookup (branch : String) : List (String × Option Node) → Option (Option Node)
  | [] => none
  | (k, v) :: rest => if k = branch then some v else branchLookup branch rest

/-- Execution of the compiled graph from a node: run the node's handler,
route by `_should_continue` through the node's branch map, and recurse
until `END`.  A branch value missing from the map raises (LangGraph
rejects an unknown branch), and exhausting `fuel` models LangGraph's
recursion limit (default 25).  Returns the list of executed nodes with
the final state. -/
def invokeFrom (dmProcess leProcess csProcess : DocumentState → DocumentState) :
    Nat → Node → DocumentState → List Node → Except PyExc (List Node × DocumentState)
  | 0, _, _, _ => .error .graphRecursionLimit
  | fuel + 1, n, s, trace =>
      let s1 := runNode dmProcess leProcess csProcess n s
      let trace1 := trace ++ [n]
      match branchLookup (shouldContinue s1) (edgeMap n) with
      | none => .error (.invalidBranch (shouldContinue s1))
      | some none => .ok (trace1, s1)
      | some (some next) => invokeFrom dmProcess leProcess csProcess fuel next s1 trace1

/-- `DocumentWorkflow.run` (lines 372-397): invoke the compiled graph on
the initial state (entry point `ocr`, recursion limit 25) and return the
final state; any exception is caught, setting the `status` key of the
initial state to `ERROR` and returning it.  Total: it never raises. -/
def run (dmProcess leProcess csProcess : DocumentState → DocumentState)
    (initial_state : DocumentState) : DocumentState :=
  match invokeFrom dmProcess leProcess csProcess 25 .ocr initial_state [] with
  | .ok r => r.2
  | .error e =>
      { initial_state with status := some .error,
                           errorKey := some (some (reprStr e)) }

/-- The executed-node trace of a `run` (empty when the graph invocation
raised). -/
def runTrace (dmProcess leProcess csProcess : DocumentState → DocumentState)
    (initial_state : DocumentState) : List Node :=
  match invokeFrom dmProcess leProcess csProcess 25 .ocr initial_state [] with
  | .ok r => r.1
  | .error _ => []

/-- An initial state as produced by the core for Scenario A's request
(document id fixed in place of `uuid.uuid4()`). -/
def exampleInitialState : DocumentState :=
  createInitialState "doc-0001" "termo_consentimento" "Acme LLC"
    "Collects emails for newsletter" none

/-- An initial state carrying a one-byte uploaded file, so the OCR stage
enters its processing branch. -/
def exampleUploadState : DocumentState :=
  createInitialState "doc-0002" "termo_consentimento" "Acme LLC"
    "Collects emails for newsletter" (some [37])

/-- A fully satisfied critical-risk requirement (two textual matches, so
`checkRequirement` classifies it `compliant`). -/
def criticalCompliantReq : ComplianceRequirement :=
  { requirement_id := "LGPD_005"
    description := "Informar direitos do titular"
    lgpd_article := "Art. 12"
    status := (checkRequirement 2).1
    evidence := (checkRequirement 2).2
    risk_level := .critical }

/-- Scenario D's synthetic two-requirement set: one critical requirement
with two matches, one low-risk requirement with one match. -/
def scenarioDReqs : List ComplianceRequirement :=
  [{ requirement_id := "R1"
     description := "primeiro requisito"
     lgpd_article := "Art. 1"
     status := (checkRequirement 2).1
     evidence := (checkRequirement 2).2
     risk_level := .critical },
   { requirement_id := "R2"
     description := "segundo requisito"
     lgpd_article := "Art. 2"
     status := (checkRequirement 1).1
     evidence := (checkRequirement 1).2
     risk_level := .low }]

/-- A state as left by a completed quality stage: `current_status` is
`QUALITY_CHECKED`, the `status` key still `PENDING`. -/
def postQualityState : DocumentState :=
  { exampleInitialState with current_status := some .quality_checked }

/-- `exampleUploadState` with the `error_messages` key initialised to an
empty list, as the `DocumentState` TypedDict declares it. -/
def exampleUploadErrState : DocumentState :=
  { exampleUploadState with error_messages := some [] }

/-- `exampleInitialState` with the `error_messages` key initialised to an
empty list. -/
def exampleHsErrState : DocumentState :=
  { exampleInitialState with error_messages := some [] }

/-- The state returned by `HumanSupervisionAgent.execute` on
`exampleHsErrState` (whose stored document type is a raw string, so the
stage takes its error path). -/
def exampleHsErrResult : DocumentState :=
  match hsExecute exampleHsErrState with
  | .ok s' => s'
  | .error _ => exampleHsErrState

/-- The graph halts after the OCR node on every input: the OCR node's
handler finds no `process` on `OCRAgent`, records `ERROR` under the
`status` key, and `_should_continue` routes to `END`. -/
theorem invokeFrom_ocr_halts (dmProcess leProcess csProcess : DocumentState → DocumentState)
    (s : DocumentState) (fuel : Nat) :
    invokeFrom dmProcess leProcess csProcess (fuel + 1) .ocr s [] =
      .ok ([.ocr], { s with status := some .error,
                            errorKey := some (some (attrErrMsg .ocr)) }) := rfl

/-- Closed form of `run`: the final state is the input with the `status`
key set to `ERROR` and the `error` key to the `AttributeError` message. -/
theorem run_eq (dmProcess leProcess csProcess : DocumentState → DocumentState)
    (s : DocumentState) :
    run dmProcess leProcess csProcess s =
      { s with status := some .error,
               errorKey := some (some (attrErrMsg .ocr)) } := rfl

/-- Closed form of `runTrace`: only the OCR node ever executes. -/
theorem runTrace_eq (dmProcess leProcess csProcess : DocumentState → DocumentState)
    (s : DocumentState) :
    runTrace dmProcess leProcess csProcess s = [Node.ocr] := rfl

/-- `_should_continue` returns only the three branch strings. -/
theorem shouldContinue_cases (s : DocumentState) :
    shouldContinue s = "error" ∨ shouldContinue s = "end" ∨
      shouldContinue s = "continue" := by
  unfold shouldContinue
  split_ifs <;> simp

/-- A `needs_revision` decision is only reachable with
`revision_attempts < 2`. -/
theorem needs_revision_imp_lt {q c : ℚ} {r : Int}
    (h : processHumanReview q c r = .needs_revision) : r < 2 := by
  unfold processHumanReview at h
  split_ifs at h with h1 h2
  all_goals first
    | exact h2.1
    | cases h

/-- `HumanSupervisionAgent.execute` bounds the revision counter: the
result never exceeds the larger of the incoming counter and the hardcoded
limit 2. -/
theorem hsExecute_rev_bound (s s' : DocumentState) (h : hsExecute s = .ok s') :
    s'.revision_attempts.getD 0 ≤ max (s.revision_attempts.getD 0) 2 := by
  unfold hsExecute at h
  cases hdt : s.document_type with
  | strVal str =>
      rw [hdt] at h
      simp only [PyDocType.value] at h
      cases hm : s.error_messages with
      | none => rw [hm] at h; simp [logAction, hm] at h
      | some msgs =>
          rw [hm] at h
          simp only [logAction, hm] at h
          cases h
          exact le_max_left _ _
  | enumVal d =>
      rw [hdt] at h
      simp only [PyDocType.value] at h
      cases hd : processHumanReview (s.quality_score.getD 0) (s.compliance_score.getD 0)
        (s.revision_attempts.getD 0) with
      | approved => rw [hd] at h; cases h; exact le_max_left _ _
      | rejected => rw [hd] at h; cases h; exact le_max_left _ _
      | needs_revision =>
          rw [hd] at h
          cases h
          have hlt := needs_revision_imp_lt hd
          simp only [logAction, Option.getD_some]
          omega

/-- Closed form of the accumulation loop of
`_calculate_requirement_score`. -/
theorem scoreLoop_eq (reqs : List ComplianceRequirement) : ∀ ws tw : ℚ,
    scoreLoop reqs ws tw =
      (ws + (reqs.map (fun r => statusScore r.status * riskWeight r.risk_level)).sum,
       tw + (reqs.map (fun r => riskWeight r.risk_level)).sum) := by
  induction reqs with
  | nil => intro ws tw; simp [scoreLoop]
  | cons r rest ih => intro ws tw; simp [scoreLoop, ih]; constructor <;> ring

/-- Every risk weight is at least 1. -/
theorem one_le_riskWeight (rl : RiskLevel) : 1 ≤ riskWeight rl := by
  cases rl <;> norm_num [riskWeight]

/-- The total weight of a non-empty requirement list is positive, so the
`total_weight > 0` guard of `_calculate_requirement_score` passes. -/
theorem riskSum_pos (reqs : List ComplianceRequirement) (h : reqs ≠ []) :
    0 < (reqs.map (fun r => riskWeight r.risk_level)).sum := by
  cases reqs with
  | nil => exact absurd rfl h
  | cons r rest =>
      have h1 : 1 ≤ riskWeight r.risk_level := one_le_riskWeight r.risk_level
      have h2 : 0 ≤ (rest.map (fun r => riskWeight r.risk_level)).sum := by
        apply List.sum_nonneg
        intro x hx
        simp only [List.mem_map] at hx
        obtain ⟨y, _, rfl⟩ := hx
        exact le_trans (by norm_num) (one_le_riskWeight y.risk_level)
      simp only [List.map_cons, List.sum_cons]
      linarith

/-- On non-empty input, the source's loop-based score equals the spec's
`Σ(status_score × weight) / Σ(weight)` formula. -/
theorem calcScore_eq_spec (reqs : List ComplianceRequirement) (h : reqs ≠ []) :
    calculateRequirementScore reqs = specAggregateScore reqs := by
  unfold calculateRequirementScore specAggregateScore
  rw [if_neg (by simpa using h)]
  rw [scoreLoop_eq]
  simp only [zero_add]
  rw [if_pos (riskSum_pos reqs h)]

/-- `QualityAgent.execute` on a completed assessment: both branches set
`current_status = QUALITY_CHECKED`, and only the unacceptable branch
increments `revision_attempts`. -/
theorem qualityExecute_ok (a : QualityAssessmentR) (s : DocumentState) :
    ∃ s', qualityExecute (.ok a) s = .ok s' ∧
      s'.current_status = some .quality_checked ∧
      s'.revision_attempts =
        (if a.is_acceptable then s.revision_attempts
         else some (s.revision_attempts.getD 0 + 1)) := by
  cases hacc : a.is_acceptable <;>
    simp [qualityExecute, logAction, hacc]

/-- Claim C1: the claim says `run` never raises and returns a state whose
`current_status` is APPROVED, REJECTED or ERROR.  `run` indeed never
raises (it is total), but at the failing input below — an initial state
built by the core itself — the returned state's `current_status` key is
absent: the node wrappers record the failure under the undeclared
`status` key instead, and no agent `execute` ever runs. -/
theorem C1_run_final_status :
    (run id id id exampleInitialState).current_status = none ∧
    (run id id id exampleInitialState).status = some ProcessingStatus.error ∧
    ¬((run id id id exampleInitialState).current_status = some .approved ∨
      (run id id id exampleInitialState).current_status = some .rejected ∨
      (run id id id exampleInitialState).current_status = some .error) := by
  refine ⟨rfl, rfl, ?_⟩
  intro hcon
  rcases hcon with h | h | h <;> cases h

/-- Claim C2: for every initial state (and any implementations of the
three `process` methods that do exist), the compiled workflow executes
only the OCR node: `OCRAgent` — like the classifier, research, structure,
generator, quality, compliance and human-supervision agents — defines no
`process`, so the node handler catches the `AttributeError`, sets the
`status` key to `ERROR`, and `run` returns that state after the OCR
node. -/
theorem C2_run_always_errors_after_ocr
    (dmProcess leProcess csProcess : DocumentState → DocumentState)
    (s : DocumentState) :
    runTrace dmProcess leProcess csProcess s = [Node.ocr] ∧
    run dmProcess leProcess csProcess s =
      { s with status := some .error,
               errorKey := some (some (attrErrMsg .ocr)) } ∧
    hasProcess .ocr = false ∧ hasProcess .classifier = false ∧
    hasProcess .research = false ∧ hasProcess .structure_ = false ∧
    hasProcess .generator = false ∧ hasProcess .quality = false ∧
    hasProcess .compliance = false ∧ hasProcess .human_supervision = false :=
  ⟨rfl, rfl, rfl, rfl, rfl, rfl, rfl, rfl, rfl, rfl⟩

/-- Claim C3, counterexample: on the state the core itself builds (which
lacks the `error_messages` key), a stage whose internal work throws does
not return an ERROR state — its own except-handler raises `KeyError`
instead of returning. -/
theorem C3_counterexample_keyerror :
    ocrExecute (.error "ConnectionError: external OCR service unreachable")
      exampleUploadState = .error (.keyError "error_messages") := rfl

/-- Claim C3 (amended): when a stage's internal work throws on a state
whose `error_messages` list is present (and a file is attached, so the
OCR stage enters its processing branch), the stage returns
`current_status = ERROR` with a non-empty `error_messages`; and no
subsequent stage is ever invoked — every run executes the OCR node
only. -/
theorem C3_stage_error_contract (e : String) (s : DocumentState)
    (msgs : List String) (hm : s.error_messages = some msgs)
    (hf : ¬(s.uploaded_file = none ∨ s.uploaded_file = some [])) :
    (∃ s', ocrExecute (.error e) s = .ok s' ∧
      s'.current_status = some ProcessingStatus.error ∧
      s'.error_messages = some (msgs ++ ["OCR Error: " ++ e]) ∧
      s'.error_messages ≠ some []) ∧
    (∀ dmProcess leProcess csProcess : DocumentState → DocumentState,
      ∀ t : DocumentState,
        runTrace dmProcess leProcess csProcess t = [Node.ocr]) := by
  constructor
  · unfold ocrExecute
    rw [if_neg ?hguard]
    case hguard => simpa using hf
    simp only [logAction, hm]
    exact ⟨_, rfl, rfl, rfl, by simp⟩
  · intro dmProcess leProcess csProcess t
    rfl

/-- Claim C3, witness: the contract at a concrete state with
`error_messages = []` and a one-byte upload. -/
theorem C3_witness :
    (∃ s', ocrExecute (.error "ConnectionError") exampleUploadErrState = .ok s' ∧
      s'.current_status = some ProcessingStatus.error ∧
      s'.error_messages = some (([] : List String) ++ ["OCR Error: " ++ "ConnectionError"]) ∧
      s'.error_messages ≠ some []) ∧
    (∀ dmProcess leProcess csProcess : DocumentState → DocumentState,
      ∀ t : DocumentState,
        runTrace dmProcess leProcess csProcess t = [Node.ocr]) :=
  C3_stage_error_contract "ConnectionError" exampleUploadErrState [] rfl
    (by simp [exampleUploadErrState, exampleUploadState, createInitialState])

/-- Claim C4, counterexample: `create_initial_state` does produce a state
for a document type outside the closed set and empty company name and
activity description — no validation failure occurs. -/
theorem C4_counterexample_accepts_invalid :
    ("tipo_inexistente" ∉ validDocumentTypes) ∧
    (createInitialState "doc-0003" "tipo_inexistente" "" "" none).document_type =
      .strVal "tipo_inexistente" ∧
    (createInitialState "doc-0003" "tipo_inexistente" "" "" none).company_name = "" ∧
    (createInitialState "doc-0003" "tipo_inexistente" "" "" none).activity_description = "" ∧
    (createInitialState "doc-0003" "tipo_inexistente" "" "" none).status = some .pending := by
  refine ⟨?_, rfl, rfl, rfl, rfl⟩
  decide

/-- Claim C4 (amended): `create_initial_state` performs no validation at
all — for every input, including document types outside the closed set
and empty strings, it succeeds and stores the inputs unchanged. -/
theorem C4_create_initial_state_never_fails (docId dt cn ad : String)
    (f : Option (List Nat)) :
    (createInitialState docId dt cn ad f).document_type = .strVal dt ∧
    (createInitialState docId dt cn ad f).company_name = cn ∧
    (createInitialState docId dt cn ad f).activity_description = ad ∧
    (createInitialState docId dt cn ad f).status = some .pending :=
  ⟨rfl, rfl, rfl, rfl⟩

/-- Claim C5, counterexample: the state built by `create_initial_state`
leaves `error_messages` and `revision_attempts` absent — not initialised
to an empty container resp. 0 as the claim requires. -/
theorem C5_counterexample_missing_keys :
    exampleInitialState.error_messages = none ∧
    exampleInitialState.revision_attempts = none ∧
    ¬(exampleInitialState.error_messages = some [] ∧
      exampleInitialState.revision_attempts = some 0) := by
  refine ⟨rfl, rfl, ?_⟩
  rintro ⟨h, -⟩
  cases h

/-- Claim C5 (amended): `create_initial_state` initialises
`processing_log` to an empty list, `generated_content` to an empty
string, the scores to 0.0, and `is_complete`/`is_approved` to false; but
`error_messages`, `revision_attempts` and `current_status` are left
absent rather than initialised. -/
theorem C5_initial_state_fields (docId dt cn ad : String)
    (f : Option (List Nat)) :
    (createInitialState docId dt cn ad f).processing_log = some [] ∧
    (createInitialState docId dt cn ad f).generated_content = some "" ∧
    (createInitialState docId dt cn ad f).quality_score = some 0 ∧
    (createInitialState docId dt cn ad f).compliance_score = some 0 ∧
    (createInitialState docId dt cn ad f).is_complete = some false ∧
    (createInitialState docId dt cn ad f).is_approved = some false ∧
    (createInitialState docId dt cn ad f).error_messages = none ∧
    (createInitialState docId dt cn ad f).revision_attempts = none ∧
    (createInitialState docId dt cn ad f).current_status = none :=
  ⟨rfl, rfl, rfl, rfl, rfl, rfl, rfl, rfl, rfl⟩

/-- Claim C6, counterexample: at quality = compliance = 0.5 and
`revision_attempts = 2`, the claim's needs-revision arm applies (2 is
below the configured maximum `MAX_REVISION_ATTEMPTS = 3`, and a score is
below 0.8), yet the code rejects — the stage compares against a hardcoded
2, not against the configured maximum, whose default is 3 rather than the
claimed 2. -/
theorem C6_counterexample_hardcoded_limit :
    processHumanReview 0.5 0.5 2 = .rejected ∧
    ¬(0.85 ≤ (0.5 : ℚ) ∧ 0.85 ≤ (0.5 : ℚ)) ∧
    (2 : Int) < MAX_REVISION_ATTEMPTS ∧ (0.5 : ℚ) < 0.8 ∧
    specReviewDecision 0.5 0.5 2 = .needs_revision := by
  norm_num [processHumanReview, specReviewDecision, MAX_REVISION_ATTEMPTS]

/-- Claim C6 (amended): the simulated decision is approved iff both
scores are ≥ 0.85; otherwise needs_revision iff `revision_attempts` is
below the hardcoded limit 2 (the configured `MAX_REVISION_ATTEMPTS`,
default 3, is not consulted) and a score is below 0.8; otherwise
rejected. -/
theorem C6_review_decision_rule (q c : ℚ) (r : Int) :
    (processHumanReview q c r = .approved ↔ (0.85 ≤ q ∧ 0.85 ≤ c)) ∧
    (processHumanReview q c r = .needs_revision ↔
      (¬(0.85 ≤ q ∧ 0.85 ≤ c) ∧ r < 2 ∧ (q < 0.8 ∨ c < 0.8))) ∧
    (processHumanReview q c r = .rejected ↔
      (¬(0.85 ≤ q ∧ 0.85 ≤ c) ∧ ¬(r < 2 ∧ (q < 0.8 ∨ c < 0.8)))) := by
  unfold processHumanReview
  split_ifs with h1 h2 <;> simp_all

/-- Claim C7, counterexample: a single fully compliant critical-risk
requirement yields weighted score 1 and zero unresolved critical
requirements — the claim then says compliant — but the code's verdict is
false, because it counts every critical-risk requirement regardless of
its status. -/
theorem C7_counterexample_resolved_critical :
    specIsCompliant [criticalCompliantReq] [] [] ∧
    (validateCompliance [criticalCompliantReq] [] []).2 = false := by
  constructor
  · constructor
    · norm_num [validateCompliance, calculateRequirementScore, scoreLoop,
        criticalCompliantReq, checkRequirement, statusScore, riskWeight]
    · intro r hr
      simp only [List.append_nil, List.mem_singleton] at hr
      subst hr
      simp [unresolvedCritical, criticalCompliantReq, checkRequirement]
  · norm_num [validateCompliance, calculateRequirementScore, scoreLoop,
      criticalCompliantReq, checkRequirement, statusScore, riskWeight]

/-- Claim C7 (amended): the overall compliance score is the weighted sum
`lgpd·0.5 + anpd·0.3 + industry·0.2`, and the document is judged
compliant iff that score is ≥ 0.85 and no checked requirement — whatever
its status, resolved or not — carries the critical risk level. -/
theorem C7_weighted_score_and_verdict
    (lgpd anpd industry : List ComplianceRequirement) :
    (validateCompliance lgpd anpd industry).1 =
      calculateRequirementScore lgpd * 0.5 + calculateRequirementScore anpd * 0.3 +
        calculateRequirementScore industry * 0.2 ∧
    ((validateCompliance lgpd anpd industry).2 = true ↔
      (0.85 ≤ (validateCompliance lgpd anpd industry).1 ∧
        ∀ r ∈ lgpd ++ anpd ++ industry, r.risk_level ≠ .critical)) := by
  unfold validateCompliance
  refine ⟨rfl, ?_⟩
  simp only [Bool.and_eq_true, decide_eq_true_eq, List.length_eq_zero,
    List.filter_eq_nil_iff]

/-- Claim C8: the evidence check classifies a requirement by its match
count exactly as claimed, and on non-empty requirement lists the loop
score equals the spec's `Σ(status_score × weight) / Σ(weight)`
formula. -/
theorem C8_requirement_scoring (n : Nat) (reqs : List ComplianceRequirement)
    (h : reqs ≠ []) :
    (((checkRequirement n).1 = .compliant ↔ 2 ≤ n) ∧
     ((checkRequirement n).1 = .partial_ ↔ n = 1) ∧
     ((checkRequirement n).1 = .non_compliant ↔ n = 0)) ∧
    calculateRequirementScore reqs = specAggregateScore reqs := by
  constructor
  · unfold checkRequirement
    split_ifs with h1 h2 <;> simp_all <;> omega
  · exact calcScore_eq_spec reqs h

/-- Claim C8, witness: the classification at one match and the aggregate
formula on Scenario D's synthetic two-requirement set. -/
theorem C8_witness :
    (((checkRequirement 1).1 = .compliant ↔ 2 ≤ 1) ∧
     ((checkRequirement 1).1 = .partial_ ↔ 1 = 1) ∧
     ((checkRequirement 1).1 = .non_compliant ↔ 1 = 0)) ∧
    calculateRequirementScore scenarioDReqs = specAggregateScore scenarioDReqs :=
  C8_requirement_scoring 1 scenarioDReqs (by simp [scenarioDReqs])

/-- Claim C9, counterexample: on a state just returned by the quality
stage (`current_status = QUALITY_CHECKED`), the orchestrator's router
returns the branch "end", which the quality node's branch map
(`compliance`/`error`) does not contain — the orchestrator does not
proceed to the compliance stage. -/
theorem C9_counterexample_routing :
    postQualityState.current_status = some .quality_checked ∧
    shouldContinue postQualityState = "end" ∧
    branchLookup (shouldContinue postQualityState) (edgeMap .quality) = none := by
  exact ⟨rfl, rfl, rfl⟩

/-- Claim C9 (amended): the quality stage itself returns
`current_status = QUALITY_CHECKED` whether or not the assessment is
acceptable, incrementing `revision_attempts` exactly when it is not; but
the orchestrator never proceeds to the compliance stage: its router only
returns error/end/continue, which the quality node's branch map matches
only on error, and no run ever executes the compliance node at all. -/
theorem C9_quality_stage_and_routing (a : QualityAssessmentR) (s : DocumentState) :
    (∃ s', qualityExecute (.ok a) s = .ok s' ∧
      s'.current_status = some .quality_checked ∧
      s'.revision_attempts =
        (if a.is_acceptable then s.revision_attempts
         else some (s.revision_attempts.getD 0 + 1))) ∧
    (∀ t : DocumentState,
      branchLookup (shouldContinue t) (edgeMap .quality) ≠ some (some .compliance)) ∧
    (∀ (dmProcess leProcess csProcess : DocumentState → DocumentState)
        (t : DocumentState),
      Node.compliance ∉ runTrace dmProcess leProcess csProcess t) := by
  refine ⟨qualityExecute_ok a s, ?_, ?_⟩
  · intro t
    unfold shouldContinue
    split_ifs <;> simp [branchLookup, edgeMap]
  · intro dmProcess leProcess csProcess t
    rw [runTrace_eq]
    simp

/-- Claim C10: every graph invocation returns within one node of fuel
(the run terminates and leaves `revision_attempts` untouched), the
human-supervision stage never pushes the counter past the larger of its
input and 2 — in particular never past the configured
`MAX_REVISION_ATTEMPTS` — and once the counter has reached 2 (hence at
the configured maximum too) the decision can no longer be
needs_revision: unless both scores warrant approval it is the terminal
rejection. -/
theorem C10_termination_and_revision_bound
    (dmProcess leProcess csProcess : DocumentState → DocumentState)
    (s s' t : DocumentState) (fuel : Nat) (q c : ℚ) (r : Int)
    (hs : hsExecute s = .ok s') (hr : 2 ≤ r) :
    (∃ res, invokeFrom dmProcess leProcess csProcess (fuel + 1) .ocr t [] = .ok res) ∧
    (run dmProcess leProcess csProcess t).revision_attempts = t.revision_attempts ∧
    s'.revision_attempts.getD 0 ≤ max (s.revision_attempts.getD 0) 2 ∧
    (s.revision_attempts.getD 0 ≤ MAX_REVISION_ATTEMPTS →
      s'.revision_attempts.getD 0 ≤ MAX_REVISION_ATTEMPTS) ∧
    processHumanReview q c r ≠ .needs_revision ∧
    (¬(0.85 ≤ q ∧ 0.85 ≤ c) → processHumanReview q c r = .rejected) := by
  have hb := hsExecute_rev_bound s s' hs
  refine ⟨⟨_, rfl⟩, rfl, hb, ?_, ?_, ?_⟩
  · intro h3
    simp only [MAX_REVISION_ATTEMPTS] at h3 ⊢
    omega
  · intro hcon
    exact absurd (needs_revision_imp_lt hcon) (by omega)
  · intro hna
    unfold processHumanReview
    rw [if_neg hna, if_neg ?hng]
    case hng => rintro ⟨hlt, -⟩; omega

/-- Claim C10, witness: the bound at a concrete human-supervision step
and the decision at counter 2 with low scores. -/
theorem C10_witness :
    (∃ res, invokeFrom id id id (0 + 1) .ocr exampleInitialState [] = .ok res) ∧
    (run id id id exampleInitialState).revision_attempts =
      exampleInitialState.revision_attempts ∧
    exampleHsErrResult.revision_attempts.getD 0 ≤
      max (exampleHsErrState.revision_attempts.getD 0) 2 ∧
    (exampleHsErrState.revision_attempts.getD 0 ≤ MAX_REVISION_ATTEMPTS →
      exampleHsErrResult.revision_attempts.getD 0 ≤ MAX_REVISION_ATTEMPTS) ∧
    processHumanReview 0.5 0.5 2 ≠ .needs_revision ∧
    (¬(0.85 ≤ (0.5 : ℚ) ∧ 0.85 ≤ (0.5 : ℚ)) →
      processHumanReview 0.5 0.5 2 = .rejected) :=
  C10_termination_and_revision_bound id id id exampleHsErrState exampleHsErrResult
    exampleInitialState 0 0.5 0.5 2 rfl (by decide)
